import Mathlib

/-!
Shallow embedding of the event correlator of the swfsm repository
(`src/fsm/correlator.go`), together with theorems settling the claims of the
specification against it.

Modelling conventions:
* A Go `map[string]V` is modelled as `StrMap V := String → Option V`;
  a `nil` map field is modelled as `none : Option (StrMap V)`, an allocated
  map as `some m`.  `oInsert` / `oDelete` / `oLookup` mirror Go map
  assignment, `delete`, and indexing (indexing a `nil` map in Go yields the
  zero value, which `oLookup` reproduces through `Option.getD`).
* Go methods take a pointer receiver and mutate it; each Lean counterpart
  takes the receiver state and returns the updated state (paired with the
  result for the lookup methods).
* A Go runtime panic (nil-pointer dereference) is modelled as `none` in an
  `Option`-valued result: `signalIDFromInfo` dereferences its `*SignalInfo`
  argument, so it maps a `none` argument to `none`, and the operations that
  call it propagate that fault.
* A history event is a tagged record dispatched on its `EventType` string;
  we model it as a sum with one constructor per event kind read by the
  correlator, carrying exactly the attribute fields the correlator reads
  (`EventID` for establishing kinds, `ScheduledEventID` / `InitiatedEventID`
  for resolving kinds).  `other s` stands for an event whose `EventType`
  string `s` is outside the recognized set; theorems about it carry that
  side condition explicitly.  Event ids are `Int` (Go `int64`), rendered as
  decimal strings for map keys exactly as `strconv.FormatInt(id, 10)` does.
-/

/-- A Go `map[string]V`: total function from keys to optional values. -/
def StrMap (V : Type) : Type := String → Option V

/-- The empty map, as produced by `make(map[string]V)`. -/
def StrMap.empty {V : Type} : StrMap V := fun _ => none

/-- Go map indexing lifted to a possibly-nil (`Option`-wrapped) map:
indexing a nil map returns the absent marker, as in Go. -/
def oLookup {V : Type} (m : Option (StrMap V)) (k : String) : Option V :=
  (m.getD StrMap.empty) k

/-- Go map assignment `m[k] = v` (the correlator only assigns after
`checkInit`, so the map is allocated at every call site). -/
def oInsert {V : Type} (m : Option (StrMap V)) (k : String) (v : V) :
    Option (StrMap V) :=
  some (fun x => if x = k then some v else oLookup m x)

/-- Go `delete(m, k)` (again only reached after `checkInit`). -/
def oDelete {V : Type} (m : Option (StrMap V)) (k : String) :
    Option (StrMap V) :=
  some (fun x => if x = k then none else oLookup m x)

/-- The activity type attached to a scheduled activity (`swf.ActivityType`:
name and version). -/
structure ActivityType where
  Name : String
  Version : String
deriving DecidableEq, Repr

/-- ActivityInfo holds the ActivityID and ActivityType for an activity. -/
structure ActivityInfo where
  ActivityID : String
  ActivityType : ActivityType
deriving DecidableEq, Repr

/-- SignalInfo holds the SignalName and WorkflowID for a signal. -/
structure SignalInfo where
  SignalName : String
  WorkflowID : String
deriving DecidableEq, Repr

/-- One history event, as read by the correlator: a tagged variant over the
event kinds it recognizes, plus `other` for every kind outside that set. -/
inductive HistoryEvent where
  | activityTaskScheduled (eventID : Int) (activityID : String)
      (activityType : ActivityType)
  | signalExternalWorkflowExecutionInitiated (eventID : Int)
      (signalName : String) (workflowID : String)
  | activityTaskCompleted (scheduledEventID : Int)
  | activityTaskFailed (scheduledEventID : Int)
  | activityTaskTimedOut (scheduledEventID : Int)
  | activityTaskCanceled (scheduledEventID : Int)
  | externalWorkflowExecutionSignaled (initiatedEventID : Int)
  | signalExternalWorkflowExecutionFailed (initiatedEventID : Int)
  | other (eventType : String)
deriving DecidableEq, Repr

/-- The `EventType` string of an event, using the `swf` constant values the
Go switch statements compare against.  The `other` constructor is meant to
carry only strings outside the recognized set; theorems state that side
condition where it matters. -/
def eventTypeOf : HistoryEvent → String
  | .activityTaskScheduled _ _ _ => "ActivityTaskScheduled"
  | .signalExternalWorkflowExecutionInitiated _ _ _ =>
      "SignalExternalWorkflowExecutionInitiated"
  | .activityTaskCompleted _ => "ActivityTaskCompleted"
  | .activityTaskFailed _ => "ActivityTaskFailed"
  | .activityTaskTimedOut _ => "ActivityTaskTimedOut"
  | .activityTaskCanceled _ => "ActivityTaskCanceled"
  | .externalWorkflowExecutionSignaled _ => "ExternalWorkflowExecutionSignaled"
  | .signalExternalWorkflowExecutionFailed _ =>
      "SignalExternalWorkflowExecutionFailed"
  | .other s => s

/-- The event-type strings the correlator's switch statements recognize. -/
def recognizedEventTypes : List String :=
  ["ActivityTaskScheduled", "SignalExternalWorkflowExecutionInitiated",
   "ActivityTaskCompleted", "ActivityTaskFailed", "ActivityTaskTimedOut",
   "ActivityTaskCanceled", "ExternalWorkflowExecutionSignaled",
   "SignalExternalWorkflowExecutionFailed"]

/-- EventCorrelator tracks signal and activity correlation info.  Each field
is `none` when the Go map is `nil` (the zero value / a checkpoint with the
field absent) and `some m` once allocated. -/
structure EventCorrelator where
  Activities : Option (StrMap ActivityInfo)
  ActivityAttempts : Option (StrMap Nat)
  Signals : Option (StrMap SignalInfo)
  SignalAttempts : Option (StrMap Nat)

/-- The zero-value (never-initialized) correlator: all four maps nil. -/
def zeroEC : EventCorrelator :=
  { Activities := none, ActivityAttempts := none,
    Signals := none, SignalAttempts := none }

/-- A freshly constructed correlator with all four maps allocated empty. -/
def freshEC : EventCorrelator :=
  { Activities := some StrMap.empty, ActivityAttempts := some StrMap.empty,
    Signals := some StrMap.empty, SignalAttempts := some StrMap.empty }

/-- `key` renders an event id as a decimal string
(`strconv.FormatInt(*eventID, 10)`). -/
def EventCorrelator.key (eventID : Int) : String := toString eventID

/-- `checkInit` replaces each nil map by a freshly allocated empty map and
leaves allocated maps untouched. -/
def EventCorrelator.checkInit (a : EventCorrelator) : EventCorrelator :=
  { Activities := some (a.Activities.getD StrMap.empty),
    ActivityAttempts := some (a.ActivityAttempts.getD StrMap.empty),
    Signals := some (a.Signals.getD StrMap.empty),
    SignalAttempts := some (a.SignalAttempts.getD StrMap.empty) }

/-- `getID` extracts the referenced origin event id (as a map key) from a
resolving event; the Go named return value defaults to the empty string for
every other kind. -/
def EventCorrelator.getID (h : HistoryEvent) : String :=
  match h with
  | .activityTaskCompleted sid => EventCorrelator.key sid
  | .activityTaskFailed sid => EventCorrelator.key sid
  | .activityTaskTimedOut sid => EventCorrelator.key sid
  | .activityTaskCanceled sid => EventCorrelator.key sid
  | .externalWorkflowExecutionSignaled iid => EventCorrelator.key iid
  | .signalExternalWorkflowExecutionFailed iid => EventCorrelator.key iid
  | _ => ""

/-- `signalIDFromInfo` formats `"SignalName->WorkflowID"`; it dereferences
its `*SignalInfo` argument, so a nil argument is a runtime fault (`none`). -/
def EventCorrelator.signalIDFromInfo (info : Option SignalInfo) :
    Option String :=
  info.map (fun i => i.SignalName ++ "->" ++ i.WorkflowID)

/-- `safeActivityID` looks up the pending activity referenced by `h` and
returns its business ActivityID, or `""` when no entry exists. -/
def EventCorrelator.safeActivityID (a : EventCorrelator) (h : HistoryEvent) :
    String :=
  match oLookup a.Activities (EventCorrelator.getID h) with
  | some info => info.ActivityID
  | none => ""

/-- `safeSignalID` looks up the pending signal referenced by `h` and returns
its derived signal id, or `""` when no entry exists (the nil check in the Go
source guards the `signalIDFromInfo` dereference here). -/
def EventCorrelator.safeSignalID (a : EventCorrelator) (h : HistoryEvent) :
    String :=
  match oLookup a.Signals (EventCorrelator.getID h) with
  | some info => (EventCorrelator.signalIDFromInfo (some info)).getD ""
  | none => ""

/-- `incrementActivityAttempts` bumps the counter keyed by the business
ActivityID recovered from the pending entry, skipping silently when the
recovered id is empty (no pending entry). -/
def EventCorrelator.incrementActivityAttempts (a : EventCorrelator)
    (h : HistoryEvent) : EventCorrelator :=
  let id := a.safeActivityID h
  if id ≠ "" then
    { a with ActivityAttempts := oInsert a.ActivityAttempts id ((oLookup a.ActivityAttempts id).getD 0 + 1) }
  else a

/-- `incrementSignalAttempts` bumps the counter keyed by the derived signal
id, skipping silently when no pending entry exists. -/
def EventCorrelator.incrementSignalAttempts (a : EventCorrelator)
    (h : HistoryEvent) : EventCorrelator :=
  let id := a.safeSignalID h
  if id ≠ "" then
    { a with SignalAttempts := oInsert a.SignalAttempts id ((oLookup a.SignalAttempts id).getD 0 + 1) }
  else a

/-- `Correlate` establishes a mapping of eventId to ActivityInfo/SignalInfo
for the two establishing kinds and does nothing for every other kind.  (The
Go source also prints a debug line for signals; stdout is not state.) -/
def EventCorrelator.Correlate (a : EventCorrelator) (h : HistoryEvent) :
    EventCorrelator :=
  let a := a.checkInit
  match h with
  | .activityTaskScheduled eid aid ty =>
      { a with Activities := oInsert a.Activities (EventCorrelator.key eid) ⟨aid, ty⟩ }
  | .signalExternalWorkflowExecutionInitiated eid sname wid =>
      { a with Signals := oInsert a.Signals (EventCorrelator.key eid) ⟨sname, wid⟩ }
  | _ => a

/-- `RemoveCorrelation` resolves a pending entry according to the event
kind.  The `ExternalWorkflowExecutionSignaled` branch dereferences the
looked-up `*SignalInfo` without a nil check, so when no pending signal entry
exists the call faults (`none`). -/
def EventCorrelator.RemoveCorrelation (a : EventCorrelator)
    (h : HistoryEvent) : Option EventCorrelator :=
  let a := a.checkInit
  match h with
  | .activityTaskCompleted sid =>
      let a1 := { a with ActivityAttempts := oDelete a.ActivityAttempts (a.safeActivityID h) }
      some { a1 with Activities := oDelete a1.Activities (EventCorrelator.key sid) }
  | .activityTaskFailed sid =>
      let a1 := a.incrementActivityAttempts h
      some { a1 with Activities := oDelete a1.Activities (EventCorrelator.key sid) }
  | .activityTaskTimedOut sid =>
      let a1 := a.incrementActivityAttempts h
      some { a1 with Activities := oDelete a1.Activities (EventCorrelator.key sid) }
  | .activityTaskCanceled sid =>
      let a1 := { a with ActivityAttempts := oDelete a.ActivityAttempts (a.safeActivityID h) }
      some { a1 with Activities := oDelete a1.Activities (EventCorrelator.key sid) }
  | .externalWorkflowExecutionSignaled iid =>
      let info := oLookup a.Signals (EventCorrelator.key iid)
      match EventCorrelator.signalIDFromInfo info with
      | none => none
      | some sid =>
          let a1 := { a with SignalAttempts := oDelete a.SignalAttempts sid }
          some { a1 with Signals := oDelete a1.Signals (EventCorrelator.key iid) }
  | .signalExternalWorkflowExecutionFailed iid =>
      let a1 := a.incrementSignalAttempts h
      some { a1 with Signals := oDelete a1.Signals (EventCorrelator.key iid) }
  | _ => some a

/-- `Track` resolves first, then establishes (a fault in the resolve phase
aborts the call, as a Go panic would). -/
def EventCorrelator.Track (a : EventCorrelator) (h : HistoryEvent) :
    Option EventCorrelator :=
  (a.RemoveCorrelation h).map (fun a => a.Correlate h)

/-- `ActivityInfo` lookup method: result paired with the post-`checkInit`
receiver state. -/
def EventCorrelator.activityInfo (a : EventCorrelator) (h : HistoryEvent) :
    Option ActivityInfo × EventCorrelator :=
  let a := a.checkInit
  (oLookup a.Activities (EventCorrelator.getID h), a)

/-- `SignalInfo` lookup method: result paired with the post-`checkInit`
receiver state. -/
def EventCorrelator.signalInfo (a : EventCorrelator) (h : HistoryEvent) :
    Option SignalInfo × EventCorrelator :=
  let a := a.checkInit
  (oLookup a.Signals (EventCorrelator.getID h), a)

/-- `AttemptsForActivity` dereferences its `*ActivityInfo` argument to form
the counter key, so a nil argument is a runtime fault (`none`); otherwise it
returns the counter (defaulting to 0) and the post-`checkInit` state. -/
def EventCorrelator.AttemptsForActivity (a : EventCorrelator)
    (info : Option ActivityInfo) : Option (Nat × EventCorrelator) :=
  let a := a.checkInit
  info.map (fun i => ((oLookup a.ActivityAttempts i.ActivityID).getD 0, a))

/-- `AttemptsForSignal` dereferences its `*SignalInfo` argument through
`signalIDFromInfo`, so a nil argument is a runtime fault (`none`). -/
def EventCorrelator.AttemptsForSignal (a : EventCorrelator)
    (signalInfo : Option SignalInfo) : Option (Nat × EventCorrelator) :=
  let a := a.checkInit
  (EventCorrelator.signalIDFromInfo signalInfo).map
    (fun sid => ((oLookup a.SignalAttempts sid).getD 0, a))

/-- Replay a whole history prefix through `Track`, propagating faults. -/
def trackAll (a : EventCorrelator) (es : List HistoryEvent) :
    Option EventCorrelator :=
  es.foldlM EventCorrelator.Track a

/-- The attempt count for an activity info, read through the public
`AttemptsForActivity` method (discarding the returned state). -/
def attemptsA (a : EventCorrelator) (info : Option ActivityInfo) :
    Option Nat :=
  (a.AttemptsForActivity info).map Prod.fst

/-- The attempt count for a signal info, read through the public
`AttemptsForSignal` method (discarding the returned state). -/
def attemptsS (a : EventCorrelator) (info : Option SignalInfo) :
    Option Nat :=
  (a.AttemptsForSignal info).map Prod.fst

/-! ### Basic lemmas about the map model -/

theorem oLookup_oInsert_self {V : Type} (m : Option (StrMap V)) (k : String)
    (v : V) : oLookup (oInsert m k v) k = some v := by
  simp [oLookup, oInsert, StrMap.empty]

theorem oLookup_oInsert_ne {V : Type} (m : Option (StrMap V)) (k x : String)
    (v : V) (h : x ≠ k) : oLookup (oInsert m k v) x = oLookup m x := by
  simp [oLookup, oInsert, StrMap.empty, h]

theorem oLookup_oDelete_self {V : Type} (m : Option (StrMap V)) (k : String) :
    oLookup (oDelete m k) k = none := by
  simp [oLookup, oDelete, StrMap.empty]

theorem oLookup_oDelete_ne {V : Type} (m : Option (StrMap V)) (k x : String)
    (h : x ≠ k) : oLookup (oDelete m k) x = oLookup m x := by
  simp [oLookup, oDelete, StrMap.empty, h]

theorem oLookup_some_getD {V : Type} (m : Option (StrMap V)) (k : String) :
    oLookup (some (m.getD StrMap.empty)) k = oLookup m k := by
  cases m <;> rfl

theorem checkInit_idem (c : EventCorrelator) :
    c.checkInit.checkInit = c.checkInit := rfl

/-! ### Claim theorems -/

/-- C1: the claim states that every resolving event whose referenced origin
event id has no pending entry is a silent no-op for `Track`.  The code
violates this for the `ExternalWorkflowExecutionSignaled` kind: the lookup
yields a nil `*SignalInfo` which `signalIDFromInfo` dereferences without the
nil guard used everywhere else, so `Track` faults on a fully initialized
correlator with no pending signal entry. -/
theorem track_signaled_without_pending_entry_faults :
    freshEC.Track (.externalWorkflowExecutionSignaled 1) = none := rfl

/-- C6: a zero-value (all maps nil) correlator behaves identically to a
freshly constructed one before any event is tracked: every `activityInfo` /
`signalInfo` lookup is absent and every attempt count (for a present info
value) is 0, on both. -/
theorem zero_value_behaves_like_fresh :
    (∀ h : HistoryEvent,
      (zeroEC.activityInfo h).1 = none ∧ (freshEC.activityInfo h).1 = none ∧
      (zeroEC.signalInfo h).1 = none ∧ (freshEC.signalInfo h).1 = none) ∧
    (∀ i : ActivityInfo,
      attemptsA zeroEC (some i) = some 0 ∧ attemptsA freshEC (some i) = some 0) ∧
    (∀ s : SignalInfo,
      attemptsS zeroEC (some s) = some 0 ∧ attemptsS freshEC (some s) = some 0) :=
  ⟨fun _ => ⟨rfl, rfl, rfl, rfl⟩, fun _ => ⟨rfl, rfl⟩, fun _ => ⟨rfl, rfl⟩⟩

/-- C9: the correlator is deterministic: two runs of the same event sequence
from the same starting state produce equal states, and every lookup and
attempt-count observation agrees between the two runs. -/
theorem deterministic_replay (c : EventCorrelator) (es : List HistoryEvent)
    (r1 r2 : Option EventCorrelator)
    (h1 : r1 = trackAll c es) (h2 : r2 = trackAll c es) :
    r1 = r2 ∧
    (∀ d1 d2 : EventCorrelator, ∀ h : HistoryEvent,
      r1 = some d1 → r2 = some d2 →
      (d1.activityInfo h).1 = (d2.activityInfo h).1 ∧
      (d1.signalInfo h).1 = (d2.signalInfo h).1) ∧
    (∀ d1 d2 : EventCorrelator, ∀ i : Option ActivityInfo,
      r1 = some d1 → r2 = some d2 → attemptsA d1 i = attemptsA d2 i) ∧
    (∀ d1 d2 : EventCorrelator, ∀ s : Option SignalInfo,
      r1 = some d1 → r2 = some d2 → attemptsS d1 s = attemptsS d2 s) := by
  subst h1; subst h2
  refine ⟨rfl, ?_, ?_, ?_⟩
  · intro d1 d2 h e1 e2
    rw [e1] at e2
    cases Option.some.inj e2
    exact ⟨rfl, rfl⟩
  · intro d1 d2 i e1 e2
    rw [e1] at e2
    cases Option.some.inj e2
    rfl
  · intro d1 d2 s e1 e2
    rw [e1] at e2
    cases Option.some.inj e2
    rfl

/-- Witness for C9: both runs of a concrete two-event history from the
zero-value correlator agree. -/
theorem deterministic_replay_witness :
    trackAll zeroEC [.activityTaskScheduled 10 "a1" ⟨"foo", "1"⟩,
      .activityTaskFailed 10] =
    trackAll zeroEC [.activityTaskScheduled 10 "a1" ⟨"foo", "1"⟩,
      .activityTaskFailed 10] :=
  (deterministic_replay zeroEC
    [.activityTaskScheduled 10 "a1" ⟨"foo", "1"⟩, .activityTaskFailed 10]
    _ _ rfl rfl).1

/-- C10: `AttemptsForActivity` / `AttemptsForSignal` fault on a nil info
argument (they dereference it to form the counter key); the zero default
applies only when the info is present but no counter entry is recorded. -/
theorem attempts_require_present_info (c : EventCorrelator) :
    c.AttemptsForActivity none = none ∧
    c.AttemptsForSignal none = none ∧
    (∀ i : ActivityInfo, oLookup c.ActivityAttempts i.ActivityID = none →
      attemptsA c (some i) = some 0) ∧
    (∀ s : SignalInfo,
      oLookup c.SignalAttempts (s.SignalName ++ "->" ++ s.WorkflowID) = none →
      attemptsS c (some s) = some 0) := by
  refine ⟨rfl, rfl, ?_, ?_⟩
  · intro i hi
    simp [attemptsA, EventCorrelator.AttemptsForActivity,
      EventCorrelator.checkInit, oLookup_some_getD, hi]
  · intro s hs
    simp [attemptsS, EventCorrelator.AttemptsForSignal,
      EventCorrelator.signalIDFromInfo, EventCorrelator.checkInit,
      oLookup_some_getD, hs]

/-- Witness for C10 at the fresh correlator and concrete info values. -/
theorem attempts_require_present_info_witness :
    freshEC.AttemptsForActivity none = none ∧
    attemptsA freshEC (some ⟨"a1", ⟨"foo", "1"⟩⟩) = some 0 ∧
    attemptsS freshEC (some ⟨"N", "W"⟩) = some 0 := by
  obtain ⟨h1, _, h3, h4⟩ := attempts_require_present_info freshEC
  exact ⟨h1, h3 ⟨"a1", ⟨"foo", "1"⟩⟩ rfl, h4 ⟨"N", "W"⟩ rfl⟩

/-- C2: activity attempt counters are keyed by the business activity id, not
the event id: starting from any correlator with no recorded attempts for
"a1", a schedule/fail cycle at event id 10 yields 1 attempt, a further
schedule/fail cycle at event id 20 yields 2, and the same holds with
timeouts in place of failures. -/
theorem activity_attempts_keyed_by_activity_id (c : EventCorrelator)
    (ty : ActivityType)
    (h0 : attemptsA c (some ⟨"a1", ty⟩) = some 0) :
    (trackAll c [.activityTaskScheduled 10 "a1" ty, .activityTaskFailed 10]).bind
      (fun d => attemptsA d (some ⟨"a1", ty⟩)) = some 1 ∧
    (trackAll c [.activityTaskScheduled 10 "a1" ty, .activityTaskFailed 10,
      .activityTaskScheduled 20 "a1" ty, .activityTaskFailed 20]).bind
      (fun d => attemptsA d (some ⟨"a1", ty⟩)) = some 2 ∧
    (trackAll c [.activityTaskScheduled 10 "a1" ty, .activityTaskTimedOut 10]).bind
      (fun d => attemptsA d (some ⟨"a1", ty⟩)) = some 1 ∧
    (trackAll c [.activityTaskScheduled 10 "a1" ty, .activityTaskTimedOut 10,
      .activityTaskScheduled 20 "a1" ty, .activityTaskTimedOut 20]).bind
      (fun d => attemptsA d (some ⟨"a1", ty⟩)) = some 2 := by
  have h0' : (oLookup c.ActivityAttempts "a1").getD 0 = 0 := by
    simpa [attemptsA, EventCorrelator.AttemptsForActivity,
      EventCorrelator.checkInit, oLookup_some_getD] using h0
  refine ⟨?_, ?_, ?_, ?_⟩ <;>
    simp [trackAll, EventCorrelator.Track, EventCorrelator.RemoveCorrelation,
      EventCorrelator.Correlate, EventCorrelator.checkInit,
      EventCorrelator.incrementActivityAttempts, EventCorrelator.safeActivityID,
      EventCorrelator.getID, EventCorrelator.key, attemptsA,
      EventCorrelator.AttemptsForActivity, oLookup_some_getD,
      oLookup_oInsert_self, oLookup_oInsert_ne, oLookup_oDelete_self,
      oLookup_oDelete_ne, h0']

/-- Witness for C2 at the zero-value correlator and a concrete activity
type. -/
theorem activity_attempts_keyed_by_activity_id_witness :
    attemptsA zeroEC (some ⟨"a1", ⟨"foo", "1"⟩⟩) = some 0 ∧
    (trackAll zeroEC [.activityTaskScheduled 10 "a1" ⟨"foo", "1"⟩,
      .activityTaskFailed 10, .activityTaskScheduled 20 "a1" ⟨"foo", "1"⟩,
      .activityTaskFailed 20]).bind
      (fun d => attemptsA d (some ⟨"a1", ⟨"foo", "1"⟩⟩)) = some 2 :=
  ⟨rfl,
   (activity_attempts_keyed_by_activity_id zeroEC ⟨"foo", "1"⟩ rfl).2.1⟩

/-- C3: resolving an activity via success or cancellation deletes its
attempt counter outright: from any correlator (whatever attempts "a1" has
accumulated), scheduling "a1" at any event id k and resolving it by
completion (or cancellation) referencing k leaves `AttemptsForActivity` at 0
and the counter entry absent. -/
theorem success_or_cancel_clears_attempts (c : EventCorrelator) (k : Int)
    (ty : ActivityType) :
    ((trackAll c [.activityTaskScheduled k "a1" ty, .activityTaskCompleted k]).bind
      (fun d => attemptsA d (some ⟨"a1", ty⟩)) = some 0 ∧
     (trackAll c [.activityTaskScheduled k "a1" ty, .activityTaskCompleted k]).map
      (fun d => oLookup d.ActivityAttempts "a1") = some none) ∧
    ((trackAll c [.activityTaskScheduled k "a1" ty, .activityTaskCanceled k]).bind
      (fun d => attemptsA d (some ⟨"a1", ty⟩)) = some 0 ∧
     (trackAll c [.activityTaskScheduled k "a1" ty, .activityTaskCanceled k]).map
      (fun d => oLookup d.ActivityAttempts "a1") = some none) := by
  refine ⟨⟨?_, ?_⟩, ⟨?_, ?_⟩⟩ <;>
    simp [trackAll, EventCorrelator.Track, EventCorrelator.RemoveCorrelation,
      EventCorrelator.Correlate, EventCorrelator.checkInit,
      EventCorrelator.safeActivityID, EventCorrelator.getID,
      EventCorrelator.key, attemptsA, EventCorrelator.AttemptsForActivity,
      oLookup_some_getD, oLookup_oInsert_self, oLookup_oDelete_self]

/-- C4: signal attempt counters are keyed by the derived identity
signalName joined with the target workflow id: from any correlator,
initiate(1,"N","W") makes `signalInfo` of the signaled event resolve to
{N,W}; after the successful signaled event the counter for {N,W} is 0; a
further initiate(2,"N","W") resolved by a delivery failure makes it 1. -/
theorem signal_attempts_keyed_by_name_and_workflow (c : EventCorrelator) :
    (trackAll c [.signalExternalWorkflowExecutionInitiated 1 "N" "W"]).map
      (fun d => (d.signalInfo (.externalWorkflowExecutionSignaled 1)).1) =
      some (some ⟨"N", "W"⟩) ∧
    (trackAll c [.signalExternalWorkflowExecutionInitiated 1 "N" "W",
      .externalWorkflowExecutionSignaled 1]).bind
      (fun d => attemptsS d (some ⟨"N", "W"⟩)) = some 0 ∧
    (trackAll c [.signalExternalWorkflowExecutionInitiated 1 "N" "W",
      .externalWorkflowExecutionSignaled 1,
      .signalExternalWorkflowExecutionInitiated 2 "N" "W",
      .signalExternalWorkflowExecutionFailed 2]).bind
      (fun d => attemptsS d (some ⟨"N", "W"⟩)) = some 1 := by
  refine ⟨?_, ?_, ?_⟩ <;>
    simp [trackAll, EventCorrelator.Track, EventCorrelator.RemoveCorrelation,
      EventCorrelator.Correlate, EventCorrelator.checkInit,
      EventCorrelator.incrementSignalAttempts, EventCorrelator.safeSignalID,
      EventCorrelator.signalIDFromInfo, EventCorrelator.getID,
      EventCorrelator.key, attemptsS, EventCorrelator.AttemptsForSignal,
      EventCorrelator.signalInfo, oLookup_some_getD, oLookup_oInsert_self,
      oLookup_oInsert_ne, oLookup_oDelete_self, oLookup_oDelete_ne]

/-- C5: each terminal event removes the pending entry it resolves, so
resolution is not repeatable: from any correlator, after scheduling
(eventId 10, "a1", type foo/1), `activityInfo` of any of the four activity
terminal kinds referencing 10 returns {a1, foo/1}; after that terminal
event is itself tracked, the same lookup returns absent. -/
theorem resolution_not_repeatable (c : EventCorrelator) :
    ((trackAll c [.activityTaskScheduled 10 "a1" ⟨"foo", "1"⟩]).map
      (fun d => (d.activityInfo (.activityTaskCompleted 10)).1) =
        some (some ⟨"a1", ⟨"foo", "1"⟩⟩) ∧
     (trackAll c [.activityTaskScheduled 10 "a1" ⟨"foo", "1"⟩,
       .activityTaskCompleted 10]).map
      (fun d => (d.activityInfo (.activityTaskCompleted 10)).1) = some none) ∧
    ((trackAll c [.activityTaskScheduled 10 "a1" ⟨"foo", "1"⟩]).map
      (fun d => (d.activityInfo (.activityTaskFailed 10)).1) =
        some (some ⟨"a1", ⟨"foo", "1"⟩⟩) ∧
     (trackAll c [.activityTaskScheduled 10 "a1" ⟨"foo", "1"⟩,
       .activityTaskFailed 10]).map
      (fun d => (d.activityInfo (.activityTaskFailed 10)).1) = some none) ∧
    ((trackAll c [.activityTaskScheduled 10 "a1" ⟨"foo", "1"⟩]).map
      (fun d => (d.activityInfo (.activityTaskTimedOut 10)).1) =
        some (some ⟨"a1", ⟨"foo", "1"⟩⟩) ∧
     (trackAll c [.activityTaskScheduled 10 "a1" ⟨"foo", "1"⟩,
       .activityTaskTimedOut 10]).map
      (fun d => (d.activityInfo (.activityTaskTimedOut 10)).1) = some none) ∧
    ((trackAll c [.activityTaskScheduled 10 "a1" ⟨"foo", "1"⟩]).map
      (fun d => (d.activityInfo (.activityTaskCanceled 10)).1) =
        some (some ⟨"a1", ⟨"foo", "1"⟩⟩) ∧
     (trackAll c [.activityTaskScheduled 10 "a1" ⟨"foo", "1"⟩,
       .activityTaskCanceled 10]).map
      (fun d => (d.activityInfo (.activityTaskCanceled 10)).1) = some none) := by
  refine ⟨⟨?_, ?_⟩, ⟨?_, ?_⟩, ⟨?_, ?_⟩, ⟨?_, ?_⟩⟩ <;>
    simp [trackAll, EventCorrelator.Track, EventCorrelator.RemoveCorrelation,
      EventCorrelator.Correlate, EventCorrelator.checkInit,
      EventCorrelator.incrementActivityAttempts, EventCorrelator.safeActivityID,
      EventCorrelator.getID, EventCorrelator.key, EventCorrelator.activityInfo,
      oLookup_some_getD, oLookup_oInsert_self, oLookup_oDelete_self]

/-- C7 counterexample: tracking an unrecognized event kind on the
zero-value correlator does NOT leave the state byte-for-byte unchanged —
`checkInit` materializes the four nil maps as (differently serialized)
empty maps. -/
theorem track_other_zero_value_changes_state :
    zeroEC.Track (.other "WorkflowExecutionStarted") ≠ some zeroEC := by
  intro h
  have h2 : freshEC = zeroEC := Option.some.inj h
  have h3 : (some StrMap.empty : Option (StrMap ActivityInfo)) = none :=
    congrArg EventCorrelator.Activities h2
  exact Option.noConfusion h3

/-- C7 amended: tracking an event whose kind is outside the recognized set
returns exactly `checkInit` of the state (entries of all four indices
unchanged; nil indices materialized as empty); on a correlator whose
indices are already initialized the state is byte-for-byte unchanged, and
repeated tracking of such an event is idempotent. -/
theorem track_unrecognized_is_checkInit (c : EventCorrelator) (s : String)
    (hs : s ∉ recognizedEventTypes) :
    c.Track (.other s) = some c.checkInit ∧
    (c.checkInit = c → c.Track (.other s) = some c) ∧
    (c.Track (.other s)).bind (fun d => d.Track (.other s)) =
      c.Track (.other s) := by
  refine ⟨rfl, ?_, rfl⟩
  intro hinit
  calc c.Track (.other s) = some c.checkInit := rfl
    _ = some c := by rw [hinit]

/-- Witness for C7 (amended) at the fresh correlator and a concrete
unrecognized event-type string. -/
theorem track_unrecognized_is_checkInit_witness :
    ("WorkflowExecutionStarted" ∉ recognizedEventTypes) ∧
    freshEC.checkInit = freshEC ∧
    freshEC.Track (.other "WorkflowExecutionStarted") = some freshEC := by
  refine ⟨by decide, rfl, ?_⟩
  exact (track_unrecognized_is_checkInit freshEC "WorkflowExecutionStarted"
    (by decide)).2.1 rfl

/-- C8 counterexample: `activityInfo` on the zero-value correlator mutates
the receiver — `checkInit` materializes the nil maps — so the state after
the call differs from the state before. -/
theorem lookup_zero_value_changes_state :
    (zeroEC.activityInfo (.activityTaskCompleted 1)).2 ≠ zeroEC := by
  intro h
  have h3 : (some StrMap.empty : Option (StrMap ActivityInfo)) = none :=
    congrArg EventCorrelator.Activities h
  exact Option.noConfusion h3

/-- C8 amended: the state after an `activityInfo` / `signalInfo` lookup is
exactly `checkInit` of the state before (no entry of any index changes);
on a correlator whose indices are already initialized the lookups leave the
state byte-for-byte unchanged. -/
theorem lookups_mutate_only_by_checkInit (c : EventCorrelator)
    (h : HistoryEvent) :
    (c.activityInfo h).2 = c.checkInit ∧
    (c.signalInfo h).2 = c.checkInit ∧
    (c.checkInit = c →
      (c.activityInfo h).2 = c ∧ (c.signalInfo h).2 = c) := by
  refine ⟨rfl, rfl, ?_⟩
  intro hinit
  constructor
  · calc (c.activityInfo h).2 = c.checkInit := rfl
      _ = c := hinit
  · calc (c.signalInfo h).2 = c.checkInit := rfl
      _ = c := hinit

/-- Witness for C8 (amended) at the fresh correlator and a concrete
event. -/
theorem lookups_mutate_only_by_checkInit_witness :
    freshEC.checkInit = freshEC ∧
    (freshEC.activityInfo (.activityTaskCompleted 1)).2 = freshEC ∧
    (freshEC.signalInfo (.activityTaskCompleted 1)).2 = freshEC := by
  refine ⟨rfl, ?_⟩
  exact (lookups_mutate_only_by_checkInit freshEC
    (.activityTaskCompleted 1)).2.2 rfl
